import Mathlib

/-!
Shallow embedding of the session interaction pattern-detection engine and
temporal correlation algorithm of `src/rrweb.ts` (ai-issue-spotter).

JavaScript conventions modelled explicitly:
- a possibly-`undefined` field is an `Option`;
- JS truthiness for strings (`""` is falsy) and numbers (`0` is falsy);
- `x.f` on `undefined x` throws: fallible code returns `Except Unit`;
- `Array.prototype.sort` with a numeric comparator is a stable ascending
  sort; for a total preorder the stable ascending sort is unique, and it is
  modelled by `List.insertionSort` (which is stable and kernel-reducible);
- machine timestamps and coordinates are integers in all inputs considered,
  modelled as `Int`.
-/

/-- JS truthiness of a possibly-undefined string: present and nonempty. -/
def truthyStr : Option String → Bool
  | some s => s != ""
  | none => false

/-- JS truthiness of a possibly-undefined number: present and nonzero. -/
def truthyInt : Option Int → Bool
  | some n => n != 0
  | none => false

/-- The test `String.prototype.includes`: `sub` occurs somewhere in `s`. -/
def strHas (s sub : String) : Bool :=
  (List.range (s.length + 1)).any (fun i => ((s.drop i).take sub.length) == sub)

/-- A 2-D point, used for mouse-move position samples. -/
structure Pos where
  x : Int
  y : Int
deriving DecidableEq

/-- Position/dimensions attached to an element in a mouse interaction;
every field may be absent (`event.data.x`, `target.width`, ... in the source
may each be `undefined`). -/
structure ElemPos where
  x : Option Int := none
  y : Option Int := none
  width : Option Int := none
  height : Option Int := none
deriving DecidableEq

/-- The structure `ProcessedRRwebEvent['element']` from the source. -/
structure Element where
  tag : Option String := none
  id : Option String := none
  className : Option String := none
  textContent : Option String := none
  attributes : Option (List (String × String)) := none
  position : Option ElemPos := none
deriving DecidableEq

/-- The `details` map of a processed event, restricted to the fields the
program ever reads (`incrementalType`, `interactionType`, `inputType`,
`value`, `href`, `userAgent`, `width`, `height`, `error`, `x`, `y`,
`positions`). -/
structure Details where
  incrementalType : Option String := none
  interactionType : Option String := none
  inputType : Option String := none
  value : Option String := none
  href : Option String := none
  userAgent : Option String := none
  width : Option Int := none
  height : Option Int := none
  error : Option String := none
  x : Option Int := none
  y : Option Int := none
  positions : Option (List Pos) := none
deriving DecidableEq

/-- The structure `ProcessedRRwebEvent` from the source. -/
structure PEvent where
  timestamp : Int
  type : String
  details : Details := {}
  url : Option String := none
  element : Option Element := none
deriving DecidableEq

instance : Inhabited PEvent := ⟨{ timestamp := 0, type := "" }⟩

/-- Session metadata (`ProcessedRRwebData['metadata']`). -/
structure Metadata where
  startTime : Int
  endTime : Int
  duration : Int
  url : String
  userAgent : String
deriving DecidableEq

/-- The structure `ProcessedRRwebData` from the source. -/
structure PData where
  sessionId : String
  events : List PEvent
  metadata : Metadata
deriving DecidableEq

/-- The `target` node of a raw incremental event (`event.data.target`). -/
structure RawTarget where
  tagName : Option String := none
  id : Option String := none
  className : Option String := none
  textContent : Option String := none
  attributes : Option (List (String × String)) := none
  width : Option Int := none
  height : Option Int := none
deriving DecidableEq

/-- The `data` payload of a raw rrweb event, restricted to the fields the
program reads. -/
structure RawData where
  source : Option Int := none
  type : Option Int := none
  target : Option RawTarget := none
  x : Option Int := none
  y : Option Int := none
  text : Option String := none
  value : Option String := none
  href : Option String := none
  userAgent : Option String := none
  width : Option Int := none
  height : Option Int := none
  error : Option String := none
  positions : Option (List Pos) := none
deriving DecidableEq

/-- A raw rrweb event: numeric `type`, millisecond `timestamp`, and a
payload that may be missing entirely (accessing a field of a missing
payload throws in JS). -/
structure RRwebEvent where
  type : Int
  timestamp : Int
  data : Option RawData := none
deriving DecidableEq

/-- The record `eventTypeMap` from the source, as the key-value record it is. -/
def eventTypeMap : List (Int × String) :=
  [(0, "DomContentLoaded"), (1, "Load"), (2, "FullSnapshot"),
   (3, "IncrementalSnapshot"), (4, "Meta"), (5, "Custom")]

/-- The record `incrementalTypeMap` from the source. -/
def incrementalTypeMap : List (Int × String) :=
  [(0, "Mutation"), (1, "MouseMove"), (2, "MouseInteraction"), (3, "Scroll"),
   (4, "ViewportResize"), (5, "Input"), (6, "TouchMove"), (7, "MediaInteraction"),
   (8, "StyleSheetRule"), (9, "CanvasMutation"), (10, "Font"), (11, "Selection")]

/-- The record `mouseInteractionMap` from the source. -/
def mouseInteractionMap : List (Int × String) :=
  [(0, "MouseDown"), (1, "MouseUp"), (2, "Click"), (3, "ContextMenu"),
   (4, "DblClick"), (5, "Focus"), (6, "Blur"), (7, "TouchStart"),
   (8, "TouchMove_Departed"), (9, "TouchEnd")]

/-- The lookup `eventTypeMap[event.type] || 'Unknown'`. -/
def eventTypeName (t : Int) : String := (eventTypeMap.lookup t).getD "Unknown"

/-- The lookup `incrementalTypeMap[event.data.source] || 'Unknown'` (a missing
`source` indexes the map at `undefined`, yielding `'Unknown'`). -/
def incName (o : Option Int) : String :=
  match o with
  | some s => (incrementalTypeMap.lookup s).getD "Unknown"
  | none => "Unknown"

/-- The lookup `mouseInteractionMap[event.data.type] || 'Unknown'`. -/
def mouseName (o : Option Int) : String :=
  match o with
  | some s => (mouseInteractionMap.lookup s).getD "Unknown"
  | none => "Unknown"

/-- The spread `{ ...event.data }` as a `Details` value: the spread copies the data
payload's fields verbatim; the processed-only fields stay absent. -/
def spreadDetails (d : RawData) : Details :=
  { value := d.value, href := d.href, userAgent := d.userAgent,
    width := d.width, height := d.height, error := d.error,
    x := d.x, y := d.y, positions := d.positions }

/-- The lookup `event.data.text || event.data.value` from the Input branch. -/
def inputValue (d : RawData) : Option String :=
  if truthyStr d.text then d.text else d.value

/-- The function `processRRwebEvent` from the source.  In the `IncrementalSnapshot` and
`Meta` branches the code dereferences `event.data` (via `event.data.source`
resp. `event.data.href`), which throws when the payload is missing; this is
the `.error` case. -/
def processRRwebEvent (e : RRwebEvent) : Except Unit PEvent :=
  let eventType := eventTypeName e.type
  if e.type == 3 then
    match e.data with
    | none => .error ()
    | some d =>
      let incTy := incName d.source
      if d.source == some 2 then
        let elem : Option Element := d.target.map (fun t =>
          { tag := t.tagName, id := t.id, className := t.className,
            textContent := t.textContent, attributes := t.attributes,
            position := some { x := d.x, y := d.y, width := t.width, height := t.height } })
        .ok { timestamp := e.timestamp, type := eventType,
              details := { incrementalType := some incTy,
                           interactionType := some (mouseName d.type) },
              element := elem }
      else if d.source == some 5 then
        let elem : Option Element := d.target.map (fun t =>
          { tag := t.tagName, id := t.id, className := t.className,
            attributes := t.attributes })
        .ok { timestamp := e.timestamp, type := eventType,
              details := { incrementalType := some incTy,
                           inputType := some "Input",
                           value := inputValue d },
              element := elem }
      else
        .ok { timestamp := e.timestamp, type := eventType,
              details := { incrementalType := some incTy } }
  else if e.type == 4 then
    match e.data with
    | none => .error ()
    | some d =>
      .ok { timestamp := e.timestamp, type := eventType,
            details := spreadDetails d, url := d.href }
  else
    .ok { timestamp := e.timestamp, type := eventType,
          details := (match e.data with
                      | some d => spreadDetails d
                      | none => {}) }

/-- The field `{events}` of one entry of `session.records`. -/
structure RawRecord where
  events : Option (List RRwebEvent) := none
deriving DecidableEq

/-- One entry of the top-level `sessions` array. -/
structure RawSession where
  sessionId : Option String := none
  records : Option (List RawRecord) := none
deriving DecidableEq

/-- The parsed top-level input; `sessions := none` models an input without a
`sessions` array (the `!data.sessions || !Array.isArray(data.sessions)`
check). -/
structure RawTop where
  sessions : Option (List RawSession) := none
deriving DecidableEq

/-- A rewrite of `List.mapM` over `Except`, written out so that induction is direct. -/
def mapExcept {α β : Type} (f : α → Except Unit β) : List α → Except Unit (List β)
  | [] => .ok []
  | x :: xs =>
    match f x with
    | .error u => .error u
    | .ok y =>
      match mapExcept f xs with
      | .error u => .error u
      | .ok ys => .ok (y :: ys)

/-- Last truthy `event.data?.href` of a `Meta` (type 4) event, else `""`. -/
def sessionUrl (sorted : List RRwebEvent) : String :=
  sorted.foldl (fun u e =>
    if e.type == 4 then
      match e.data with
      | some d =>
        match d.href with
        | some h => if h != "" then h else u
        | none => u
      | none => u
    else u) ""

/-- Last truthy `event.data?.userAgent` of a `Meta` event, else `""`. -/
def sessionUserAgent (sorted : List RRwebEvent) : String :=
  sorted.foldl (fun u e =>
    if e.type == 4 then
      match e.data with
      | some d =>
        match d.userAgent with
        | some h => if h != "" then h else u
        | none => u
      | none => u
    else u) ""

/-- Processing of one entry of `data.sessions` inside `loadRRwebData`:
collect the record events, sort stably by timestamp, compute metadata, and
map `processRRwebEvent` over the sorted events (a throw aborts, to be
caught at the top level).  `gid` is the generated fallback session id
(`session_${Date.now()}_${Math.random()...}`), taken when `session.sessionId`
is falsy. -/
def processSession (gid : String) (s : RawSession) : Except Unit PData :=
  let sessionId :=
    match s.sessionId with
    | some x => if x != "" then x else gid
    | none => gid
  let allEvents := (s.records.getD []).foldl (fun acc r => acc ++ r.events.getD []) []
  let sorted := List.insertionSort (fun a b => a.timestamp ≤ b.timestamp) allEvents
  let startTime := match sorted.head? with | some e => e.timestamp | none => 0
  let endTime := match sorted.getLast? with | some e => e.timestamp | none => 0
  match mapExcept processRRwebEvent sorted with
  | .error u => .error u
  | .ok pevents =>
    .ok { sessionId,
          events := pevents,
          metadata := { startTime, endTime, duration := endTime - startTime,
                        url := sessionUrl sorted,
                        userAgent := sessionUserAgent sorted } }

/-- The `data.sessions.map(...)` loop; `gen i` is the fallback id generated
for the `i`-th session (each generation consults the clock and the random
number generator, modelled as the external stream `gen`). -/
def loadSessions (gen : Nat → String) : Nat → List RawSession → Except Unit (List PData)
  | _, [] => .ok []
  | i, s :: ss =>
    match processSession (gen i) s with
    | .error u => .error u
    | .ok p =>
      match loadSessions gen (i + 1) ss with
      | .error u => .error u
      | .ok ps => .ok (p :: ps)

/-- The body of `loadRRwebData` after JSON parsing, before the enclosing
`try/catch`: `input = none` models unparseable JSON (`safeJsonParse`
returned `null`); a missing `sessions` array returns `[]`; otherwise the
sessions are processed and any internal throw propagates as `.error`. -/
def loadRRwebDataE (gen : Nat → String) (input : Option RawTop) : Except Unit (List PData) :=
  match input with
  | none => .ok []
  | some top =>
    match top.sessions with
    | none => .ok []
    | some ss => loadSessions gen 0 ss

/-- The function `loadRRwebData` from the source: the top-level `catch` turns any
internal throw into a logged error and an empty result. -/
def loadRRwebData (gen : Nat → String) (input : Option RawTop) : List PData :=
  match loadRRwebDataE gen input with
  | .ok l => l
  | .error _ => []

/-- Viewport size tracked from `Meta` events. -/
structure Viewport where
  width : Int
  height : Int
deriving DecidableEq

/-- A context entry produced by `getContextAroundEvent`: the event with its
`url` dropped and verbose `positions` truncated. -/
structure CtxEvent where
  type : String
  timestamp : Int
  details : Details
  element : Option Element
deriving DecidableEq

/-- The context simplification applied per event by `getContextAroundEvent`:
`positions` longer than 3 entries are truncated to the first 3. -/
def simplifyCtx (e : PEvent) : CtxEvent :=
  { type := e.type, timestamp := e.timestamp, element := e.element,
    details :=
      match e.details.positions with
      | some l => if l.length > 3 then { e.details with positions := some (l.take 3) } else e.details
      | none => e.details }

/-- The function `getContextAroundEvent` from the source (window `w` before and after
index `i`, inclusive). -/
def getContextAroundEvent (events : List PEvent) (i : Nat) (w : Nat) : List CtxEvent :=
  if events.length == 0 then []
  else if events.length ≤ i then []
  else
    let s := i - w
    let e := min (events.length - 1) (i + w)
    ((events.take (e + 1)).drop s).map simplifyCtx

/-- A key moment: one constructor per moment object shape pushed by
`extractKeyMoments`, with exactly the fields the source sets (besides the
literal `type` tag, which becomes the constructor). -/
inductive Moment where
  | navigationLoop (timestamp : Int) (url : String) (frequency : Nat)
      (timeWindow : Int) (sessionId : String)
  | jsError (timestamp : Int) (error : String) (url : String) (sessionId : String)
  | rageClick (timestamp : Int) (clickCount : Nat) (element : Option Element)
      (url : String) (context : List CtxEvent) (sessionId : String)
  | deadClick (timestamp : Int) (element : Option Element) (url : String)
      (context : List CtxEvent) (sessionId : String)
  | formAbandonment (timestamp : Int) (formId : String) (interactionCount : Nat)
      (lastValue : Option String) (url : String) (context : Option (List CtxEvent))
      (formCompleted : Option Bool) (sessionId : String)
  | rapidScrolling (timestamp : Int) (scrollCount : Nat) (duration : Int)
      (url : String) (context : List CtxEvent) (sessionId : String)
  | mouseHovering (timestamp : Int) (duration : Int) (position : Pos)
      (url : String) (context : List CtxEvent) (sessionId : String)
  | hesitation (timestamp : Int) (durationMs : Int) (beforeEvent afterEvent : PEvent)
      (url : String) (context : List CtxEvent) (sessionId : String)
  | multipleSubmissions (timestamp : Int) (count : Nat) (element : Option Element)
      (url : String) (context : List CtxEvent) (sessionId : String)
  | horizontalScrollMobile (timestamp : Int) (viewport : Viewport) (scrollX : Int)
      (url : String) (sessionId : String)
  | shortSession (timestamp : Int) (durationMs : Int) (pageCount : Nat)
      (url : String) (sessionId : String)
  | sessionMetrics (timestamp : Int) (duration : Int)
      (clickCount inputCount pageViewCount errorCount : Nat) (sessionId : String)
deriving DecidableEq

/-- The `type` tag string of a moment, as the source writes it. -/
def Moment.kind : Moment → String
  | .navigationLoop .. => "NavigationLoop"
  | .jsError .. => "JSError"
  | .rageClick .. => "RageClick"
  | .deadClick .. => "DeadClick"
  | .formAbandonment .. => "FormAbandonment"
  | .rapidScrolling .. => "RapidScrolling"
  | .mouseHovering .. => "MouseHovering"
  | .hesitation .. => "Hesitation"
  | .multipleSubmissions .. => "MultipleSubmissions"
  | .horizontalScrollMobile .. => "HorizontalScrollMobile"
  | .shortSession .. => "ShortSession"
  | .sessionMetrics .. => "SessionMetrics"

/-- The `timestamp` field of a moment. -/
def Moment.timestamp : Moment → Int
  | .navigationLoop t _ _ _ _ => t
  | .jsError t _ _ _ => t
  | .rageClick t _ _ _ _ _ => t
  | .deadClick t _ _ _ _ => t
  | .formAbandonment t _ _ _ _ _ _ _ => t
  | .rapidScrolling t _ _ _ _ _ => t
  | .mouseHovering t _ _ _ _ _ => t
  | .hesitation t _ _ _ _ _ _ => t
  | .multipleSubmissions t _ _ _ _ _ => t
  | .horizontalScrollMobile t _ _ _ _ => t
  | .shortSession t _ _ _ _ => t
  | .sessionMetrics t _ _ _ _ _ _ => t

/-- The field `clickCount` of a `RageClick` moment (0 otherwise). -/
def Moment.rageClicks : Moment → Nat
  | .rageClick _ c _ _ _ _ => c
  | _ => 0

/-- The field `interactionCount` of a `FormAbandonment` moment (0 otherwise). -/
def Moment.faInteractions : Moment → Nat
  | .formAbandonment _ _ c _ _ _ _ _ => c
  | _ => 0

/-- The field `errorCount` of a `SessionMetrics` moment (0 otherwise). -/
def Moment.smErrors : Moment → Nat
  | .sessionMetrics _ _ _ _ _ c _ => c
  | _ => 0

/-- The field `inputCount` of a `SessionMetrics` moment (0 otherwise). -/
def Moment.smInputs : Moment → Nat
  | .sessionMetrics _ _ _ c _ _ _ => c
  | _ => 0

/-- The field `durationMs` of a `Hesitation` moment (0 otherwise). -/
def Moment.hesDuration : Moment → Int
  | .hesitation _ d _ _ _ _ _ => d
  | _ => 0

/-- The access `element.position?.x || 0` of a processed element. -/
def posX (el : Element) : Int := ((el.position.bind fun p => p.x).getD 0)

/-- The access `element.position?.y || 0` of a processed element. -/
def posY (el : Element) : Int := ((el.position.bind fun p => p.y).getD 0)

/-- The same-area test of the rage-click filter: both events carry an
element and the per-axis distances are under 20 px. -/
def sameArea (c e : PEvent) : Bool :=
  match c.element, e.element with
  | some ce, some ee =>
      decide ((posX ce - posX ee).natAbs < 20) && decide ((posY ce - posY ee).natAbs < 20)
  | _, _ => false

/-- The access `element.attributes && element.attributes[k]` as an optional value. -/
def getAttr (el : Element) (k : String) : Option String :=
  match el.attributes with
  | some attrs => List.lookup k attrs
  | none => none

/-- The access `element.className && element.className.includes(sub)`. -/
def classHas (el : Element) (sub : String) : Bool :=
  match el.className with
  | some c => (c != "") && strHas c sub
  | none => false

/-- The `interactiveElements` set from the source. -/
def interactiveElements : List String :=
  ["BUTTON", "A", "INPUT", "SELECT", "TEXTAREA", "LABEL"]

/-- The membership test `interactiveElements.has(element.tag)`. -/
def isInteractiveTag (el : Element) : Bool :=
  match el.tag with
  | some t => interactiveElements.contains t
  | none => false

/-- The click/mouse-down guard of the rage-click block. -/
def isClickEvt (e : PEvent) : Bool :=
  e.type == "IncrementalSnapshot" &&
  e.details.incrementalType == some "MouseInteraction" &&
  (e.details.interactionType == some "Click" || e.details.interactionType == some "MouseDown")

/-- The guard of the form-input tracking block. -/
def isInputEvt (e : PEvent) : Bool :=
  e.type == "IncrementalSnapshot" && e.details.incrementalType == some "Input"

/-- The guard of the scroll block. -/
def isScrollEvt (e : PEvent) : Bool :=
  e.type == "IncrementalSnapshot" && e.details.incrementalType == some "Scroll"

/-- The guard of the mouse-move block. -/
def isMouseMoveEvt (e : PEvent) : Bool :=
  e.type == "IncrementalSnapshot" && e.details.incrementalType == some "MouseMove"

/-- A qualifying submit click for the form-abandonment lookback: a click on
a `BUTTON` with `type=submit`, or on an element bound to form `fid`. -/
def formSubmitClick (fid : String) (e : PEvent) : Bool :=
  e.type == "IncrementalSnapshot" &&
  e.details.incrementalType == some "MouseInteraction" &&
  e.details.interactionType == some "Click" &&
  (match e.element with
   | some el =>
     (el.tag == some "BUTTON" && getAttr el "type" == some "submit") ||
     (getAttr el "form" == some fid)
   | none => false)

/-- Submit-style element: `BUTTON` with `type=submit`, or a class name
containing `submit` or `send`. -/
def submitLike (el : Element) : Bool :=
  (el.tag == some "BUTTON" && getAttr el "type" == some "submit") ||
  (classHas el "submit" || classHas el "send")

/-- The guard of the multiple-submissions block. -/
def isSubmitClick (e : PEvent) : Bool :=
  e.type == "IncrementalSnapshot" &&
  e.details.incrementalType == some "MouseInteraction" &&
  e.details.interactionType == some "Click" &&
  (match e.element with
   | some el => submitLike el
   | none => false)

/-- The filter applied to the 20-event lookback of the multiple-submissions
block (note: no `interactionType` check here, mirroring the source). -/
def recentSubmitPred (t0 : Int) (x : PEvent) : Bool :=
  x.type == "IncrementalSnapshot" &&
  x.details.incrementalType == some "MouseInteraction" &&
  decide (x.timestamp > t0 - 10000) &&
  (match x.element with
   | some el => submitLike el
   | none => false)

/-- The slice `Array.prototype.slice(a, b)` on a list (for the lookback windows). -/
def jsSlice (l : List PEvent) (a b : Nat) : List PEvent := (l.take b).drop a

/-- The slice `Array.prototype.slice(-n)`: the last `n` entries. -/
def takeLast {α : Type} (l : List α) (n : Nat) : List α := l.drop (l.length - n)

/-- The first mouse-move position of each sample, defaulting to `(0,0)`
when `details.positions` is missing or empty. -/
def hoverPositions (lastMoves : List PEvent) : List Pos :=
  lastMoves.map (fun m =>
    match m.details.positions with
    | some (p :: _) => ⟨p.x, p.y⟩
    | _ => ⟨0, 0⟩)

/-- The `allPositionsWithinRange` check: every sample is within 30 px per
axis of the previous one. -/
def chainClose : List Pos → Bool
  | [] => true
  | [_] => true
  | a :: b :: rest =>
    (decide ((b.x - a.x).natAbs < 30) && decide ((b.y - a.y).natAbs < 30)) &&
    chainClose (b :: rest)

/-- State of the first pass of `extractKeyMoments` (metadata scan):
navigation events, current URL, error events, viewport, and the moments
pushed so far. -/
structure St1 where
  navigationEvents : List PEvent := []
  currentUrl : String
  errorEvents : List PEvent := []
  viewport : Viewport := ⟨0, 0⟩
  moments : List Moment := []
deriving DecidableEq

/-- One step of the first pass: viewport from `Meta`, URL tracking and
navigation-loop detection from `Navigate`, and `JSError` capture from
incremental events with `incrementalType === 'Canvas'`. -/
def step1 (sid : String) (st : St1) (e : PEvent) : St1 :=
  let s1 :=
    if e.type == "Meta" && truthyInt e.details.width && truthyInt e.details.height then
      { st with viewport := ⟨e.details.width.getD 0, e.details.height.getD 0⟩ }
    else st
  let s2 :=
    if e.type == "Navigate" && truthyStr e.details.href then
      let cur := e.details.href.getD ""
      let navs := s1.navigationEvents ++ [e]
      let recent := (navs.filter (fun x => decide (x.timestamp > e.timestamp - 120000))).filter
        (fun x => x.url == some cur)
      let ms :=
        if decide (recent.length ≥ 3) then
          [Moment.navigationLoop e.timestamp cur recent.length 120000 sid]
        else []
      { s1 with currentUrl := cur, navigationEvents := navs, moments := s1.moments ++ ms }
    else s1
  if e.type == "IncrementalSnapshot" && e.details.incrementalType == some "Canvas" &&
     truthyStr e.details.error then
    { s2 with errorEvents := s2.errorEvents ++ [e],
              moments := s2.moments ++ [Moment.jsError e.timestamp (e.details.error.getD "") s2.currentUrl sid] }
  else s2

/-- The whole first pass over a session's events. -/
def pass1 (sid : String) (initUrl : String) (events : List PEvent) : St1 :=
  events.foldl (step1 sid) { currentUrl := initUrl }

/-- State of the second pass of `extractKeyMoments` (pattern scan). -/
structure St2 where
  clickEvents : List PEvent := []
  lastClickTime : Int := 0
  formInteractions : List PEvent := []
  currentFormId : Option String := none
  lastInputTime : Int := 0
  lastInputValue : Option String := none
  scrollEvents : List PEvent := []
  lastScrollTime : Int := 0
  mouseMovements : List PEvent := []
  lastMouseMoveTime : Int := 0
deriving DecidableEq

/-- The rage-click / dead-click block of the second pass: push the click,
detect a same-area burst (clicks chained at under 1000 ms from the previous
click), and independently a dead click on a non-interactive element. -/
def clickBlock (events : List PEvent) (url sid : String) (i : Nat) (e : PEvent)
    (st : St2) : St2 × List Moment :=
  if isClickEvt e then
    let ce0 := st.clickEvents ++ [e]
    let pr : List PEvent × List Moment :=
      if decide (e.timestamp - st.lastClickTime < 1000) then
        if decide (ce0.length ≥ 3) then
          let same := ce0.filter (fun c => sameArea c e)
          if decide (same.length ≥ 3) then
            ([], [Moment.rageClick e.timestamp same.length e.element url
                    (getContextAroundEvent events i 5) sid])
          else (ce0, [])
        else (ce0, [])
      else ([e], [])
    let deadMs :=
      match e.element with
      | some el =>
        if !(isInteractiveTag el) && !(classHas el "btn") && !(classHas el "button") &&
           !(getAttr el "role" == some "button") && !(truthyStr (getAttr el "onclick")) then
          [Moment.deadClick e.timestamp (some el) url (getContextAroundEvent events i 3) sid]
        else []
      | none => []
    ({ st with clickEvents := pr.1, lastClickTime := e.timestamp }, pr.2 ++ deadMs)
  else (st, [])

/-- The form-input tracking block: record the interaction and the current
form id (only when the element carries a truthy `form` attribute). -/
def inputBlock (e : PEvent) (st : St2) : St2 :=
  if isInputEvt e then
    let fid :=
      match e.element with
      | some el =>
        if truthyStr (getAttr el "form") then some ((getAttr el "form").getD "")
        else st.currentFormId
      | none => st.currentFormId
    { st with formInteractions := st.formInteractions ++ [e], lastInputTime := e.timestamp,
              lastInputValue := e.details.value, currentFormId := fid }
  else st

/-- The form-abandonment-on-navigate block: on a `Navigate` event with an
open form, look back 10 events for a qualifying submit click and emit a
`FormAbandonment` when none is found and at least 2 inputs accumulated;
the form tracking is reset either way. -/
def navFormBlock (events : List PEvent) (url sid : String) (i : Nat) (e : PEvent)
    (st : St2) : St2 × List Moment :=
  if e.type == "Navigate" && st.currentFormId.isSome && !st.formInteractions.isEmpty then
    let fid := st.currentFormId.getD ""
    let found := (jsSlice events (i - 10) i).any (formSubmitClick fid)
    let ms :=
      if !found && decide (st.formInteractions.length ≥ 2) then
        [Moment.formAbandonment e.timestamp fid st.formInteractions.length st.lastInputValue
           url (some (getContextAroundEvent events i 10)) none sid]
      else []
    ({ st with formInteractions := [], currentFormId := none }, ms)
  else (st, [])

/-- The rapid-scrolling block: push the scroll event, count the scrolls of
the last 5 s and, on a burst of at least 8, emit and truncate the scroll
queue to its last 2 entries. -/
def scrollBlock (events : List PEvent) (url sid : String) (i : Nat) (e : PEvent)
    (st : St2) : St2 × List Moment :=
  if isScrollEvt e then
    let se := st.scrollEvents ++ [e]
    let recent := se.filter (fun x => decide (x.timestamp > e.timestamp - 5000))
    let pr : List PEvent × List Moment :=
      if decide (recent.length ≥ 8) then
        (takeLast se 2,
         [Moment.rapidScrolling e.timestamp recent.length
            (e.timestamp - (recent.headD default).timestamp) url
            (getContextAroundEvent events i 5) sid])
      else (se, [])
    ({ st with scrollEvents := pr.1, lastScrollTime := e.timestamp }, pr.2)
  else (st, [])

/-- The mouse-hovering block: push the sample and, when at least 3 samples
exist and more than 3 s passed since the previous sample, inspect the last
3 first-positions; samples are emitted only when every position is valid
(not exactly `(0,0)`) and each is within 30 px per axis of the previous. -/
def hoverBlock (events : List PEvent) (url sid : String) (i : Nat) (e : PEvent)
    (st : St2) : St2 × List Moment :=
  if isMouseMoveEvt e then
    let mm := st.mouseMovements ++ [e]
    let ms :=
      if decide (mm.length ≥ 3) && decide (e.timestamp - st.lastMouseMoveTime > 3000) then
        let lastMoves := takeLast mm 3
        let ps := hoverPositions lastMoves
        if ps.all (fun p => p.x != 0 || p.y != 0) then
          if chainClose ps then
            [Moment.mouseHovering e.timestamp
               (e.timestamp - (lastMoves.headD default).timestamp)
               (ps.getLastD ⟨0, 0⟩) url (getContextAroundEvent events i 3) sid]
          else []
        else []
      else []
    ({ st with mouseMovements := mm, lastMouseMoveTime := e.timestamp }, ms)
  else (st, [])

/-- The hesitation block: for `i > 0`, a gap between the consecutive events
over 10 s and under 300 s, both of type `IncrementalSnapshot`, where the
current event's incremental type is `MouseInteraction` or `Input`, emits a
`Hesitation`.  This block reads no detector state. -/
def hesitationBlock (events : List PEvent) (url sid : String) (i : Nat) : List Moment :=
  if 0 < i then
    let e := events.getD i default
    let prev := events.getD (i - 1) default
    let diff := e.timestamp - prev.timestamp
    if decide (diff > 10000) && decide (diff < 300000) &&
       e.type == "IncrementalSnapshot" && prev.type == "IncrementalSnapshot" &&
       (e.details.incrementalType == some "MouseInteraction" ||
        e.details.incrementalType == some "Input") then
      [Moment.hesitation e.timestamp diff prev e url (getContextAroundEvent events i 5) sid]
    else []
  else []

/-- The multiple-submissions block: on a submit-style click, count
submit-style mouse interactions in the 20-event lookback within 10 s. -/
def multiSubBlock (events : List PEvent) (url sid : String) (i : Nat) (e : PEvent) :
    List Moment :=
  if isSubmitClick e then
    let recent := (jsSlice events (i - 20) i).filter (recentSubmitPred e.timestamp)
    if decide (recent.length ≥ 2) then
      [Moment.multipleSubmissions e.timestamp (recent.length + 1) e.element url
         (getContextAroundEvent events i 10) sid]
    else []
  else []

/-- The horizontal-scroll-on-mobile block: viewport narrower than 768 px
and a scroll event with positive `x`. -/
def horizBlock (vp : Viewport) (url sid : String) (e : PEvent) : List Moment :=
  if decide (vp.width < 768) && isScrollEvt e &&
     (match e.details.x with | some v => decide (v > 0) | none => false) then
    [Moment.horizontalScrollMobile e.timestamp vp (e.details.x.getD 0) url sid]
  else []

/-- One step of the second pass, at index `i`, running the blocks in the
source's order and collecting their emissions in that order. -/
def step2 (events : List PEvent) (url : String) (vp : Viewport) (sid : String)
    (st : St2) (i : Nat) : St2 × List Moment :=
  let e := events.getD i default
  let pA := clickBlock events url sid i e st
  let sB := inputBlock e pA.1
  let pC := navFormBlock events url sid i e sB
  let pD := scrollBlock events url sid i e pC.1
  let pE := hoverBlock events url sid i e pD.1
  (pE.1, pA.2 ++ pC.2 ++ pD.2 ++ pE.2 ++ hesitationBlock events url sid i ++
         multiSubBlock events url sid i e ++ horizBlock vp url sid e)

/-- Fold a step function over indices, collecting the emitted moments. -/
def collectFold {σ : Type} (f : σ → Nat → σ × List Moment) (init : σ) (l : List Nat) :
    σ × List Moment :=
  l.foldl (fun a i => ((f a.1 i).1, a.2 ++ (f a.1 i).2)) (init, [])

/-- The whole second pass: fold `step2` over the indices, collecting the
emitted moments and the final state (needed for the end-of-session
form-abandonment check). -/
def pass2 (events : List PEvent) (url : String) (vp : Viewport) (sid : String) :
    St2 × List Moment :=
  collectFold (step2 events url vp sid) ({} : St2) (List.range events.length)

/-- The post-session block: end-of-session form abandonment, short-session
detection, and the always-appended `SessionMetrics` moment. -/
def postMoments (events : List PEvent) (st1 : St1) (st2 : St2) (meta : Metadata)
    (sid : String) : List Moment :=
  let fa :=
    if st2.currentFormId.isSome && !st2.formInteractions.isEmpty then
      [Moment.formAbandonment (events.getLastD default).timestamp (st2.currentFormId.getD "")
         st2.formInteractions.length st2.lastInputValue st1.currentUrl none (some false) sid]
    else []
  let ss :=
    if decide (meta.duration < 10000) && decide (st1.navigationEvents.length ≤ 2) then
      [Moment.shortSession meta.startTime meta.duration st1.navigationEvents.length
         st1.currentUrl sid]
    else []
  let sm :=
    [Moment.sessionMetrics meta.startTime meta.duration
       (events.countP (fun x => x.type == "IncrementalSnapshot" &&
          x.details.incrementalType == some "MouseInteraction" &&
          x.details.interactionType == some "Click"))
       (events.countP (fun x => x.type == "IncrementalSnapshot" &&
          x.details.incrementalType == some "Input"))
       (events.countP (fun x => x.type == "Navigate"))
       st1.errorEvents.length sid]
  fa ++ ss ++ sm

/-- All moments of one session; a session with no events is skipped
(`if (!events || events.length === 0) continue`). -/
def sessionMoments (s : PData) : List Moment :=
  if s.events.isEmpty then []
  else
    let st1 := pass1 s.sessionId s.metadata.url s.events
    let p2 := pass2 s.events st1.currentUrl st1.viewport s.sessionId
    st1.moments ++ p2.2 ++ postMoments s.events st1 p2.1 s.metadata s.sessionId

/-- The function `extractKeyMoments` from the source. -/
def extractKeyMoments (rrwebData : List PData) : List Moment :=
  rrwebData.foldl (fun acc s => acc ++ sessionMoments s) []

/-- A PostHog event as consumed by the sync (ISO-string timestamp). -/
structure PostHogEvent where
  id : String
  event : String
  distinct_id : String
  properties : List (String × String) := []
  timestamp : String
deriving DecidableEq

/-- A PostHog event with its `normalizedTimestamp` attached
(`new Date(event.timestamp).getTime()`; the parse is a pure function of the
string, abstracted as `getTime`). -/
structure NormPH where
  base : PostHogEvent
  normalizedTimestamp : Int
deriving DecidableEq

/-- A nearby PostHog event with its `relevanceScore` attached. -/
structure ScoredPH where
  base : PostHogEvent
  normalizedTimestamp : Int
  relevanceScore : Rat
deriving DecidableEq

/-- The rounding `parseFloat(x.toFixed(2))`: round to 2 decimals, half away from zero
for the positive values arising here. -/
def round2 (q : Rat) : Rat := ((⌊q * 100 + 1 / 2⌋ : Int) : Rat) / 100

/-- Temporal distance between a normalized event and a moment timestamp. -/
def tDist (mts : Int) (e : NormPH) : Nat := (e.normalizedTimestamp - mts).natAbs

/-- The per-moment body of `syncWithPostHogEvents`: filter to the 30 s
window, sort ascending by temporal distance (stable), and attach
`relevanceScore = 1 - distance / 30000` rounded to 2 decimals. -/
def relevantEvents (mts : Int) (nevs : List NormPH) : List ScoredPH :=
  let nearby := nevs.filter (fun e => decide (tDist mts e < 30000))
  let sorted := List.insertionSort (fun a b => tDist mts a ≤ tDist mts b) nearby
  sorted.map (fun e =>
    ⟨e.base, e.normalizedTimestamp, round2 (1 - ((tDist mts e : Int) : Rat) / 30000)⟩)

/-- The spread `{...event, normalizedTimestamp: new Date(event.timestamp).getTime()}`. -/
def normalizedPH (getTime : String → Int) (evs : List PostHogEvent) : List NormPH :=
  evs.map (fun e => ⟨e, getTime e.timestamp⟩)

/-- A key moment with its nearby PostHog events attached. -/
structure CorrelatedMoment where
  moment : Moment
  nearbyPosthogEvents : List ScoredPH
deriving DecidableEq

/-- The function `syncWithPostHogEvents` from the source. -/
def syncWithPostHogEvents (getTime : String → Int) (rrwebData : List PData)
    (posthogEvents : List PostHogEvent) : List NormPH × List CorrelatedMoment :=
  let keyMoments := extractKeyMoments rrwebData
  let normalized := normalizedPH getTime posthogEvents
  (normalized, keyMoments.map (fun m => ⟨m, relevantEvents m.timestamp normalized⟩))

/-- The full pipeline on raw input, as exercised by the callers: load and
normalize the raw sessions, then extract and correlate.  `gen` models the
clock/random fallback-id source consulted by `loadRRwebData`. -/
def pipeline (gen : Nat → String) (getTime : String → Int) (input : Option RawTop)
    (posthogEvents : List PostHogEvent) : List NormPH × List CorrelatedMoment :=
  syncWithPostHogEvents getTime (loadRRwebData gen input) posthogEvents

/-!
Concrete inputs, claim-side specification definitions, and the witnesses
used by the verification theorems below.
-/

/-- A normalized external event at distance 29999 from moment time 1000. -/
def phNear : NormPH :=
  ⟨{ id := "e1", event := "$pageview", distinct_id := "u", timestamp := "a" }, 30999⟩

/-- A normalized external event at distance 30001 from moment time 1000. -/
def phFar : NormPH :=
  ⟨{ id := "e2", event := "$pageview", distinct_id := "u", timestamp := "b" }, 31001⟩

/-- The kinds the second pass can emit. -/
def pass2Kinds : List String :=
  ["RageClick", "DeadClick", "FormAbandonment", "RapidScrolling", "MouseHovering",
   "Hesitation", "MultipleSubmissions", "HorizontalScrollMobile"]

/-- Metadata for a hand-built session spanning `[st, en]`. -/
def mkMeta (st en : Int) : Metadata :=
  { startTime := st, endTime := en, duration := en - st, url := "https://app/p1", userAgent := "" }

/-- A processed click event on a `BUTTON` at position `(x, y)`. -/
def clickEvt (t x y : Int) : PEvent :=
  { timestamp := t, type := "IncrementalSnapshot",
    details := { incrementalType := some "MouseInteraction", interactionType := some "Click" },
    element := some { tag := some "BUTTON", position := some { x := some x, y := some y } } }

/-- A processed input event, optionally bound to a form id. -/
def inputEvt (t : Int) (form : Option String) : PEvent :=
  { timestamp := t, type := "IncrementalSnapshot",
    details := { incrementalType := some "Input", inputType := some "Input", value := some "abc" },
    element := some { tag := some "INPUT",
                      attributes := match form with | some f => some [("form", f)] | none => some [] } }

/-- A processed click on a submit button. -/
def submitClickEvt (t : Int) : PEvent :=
  { timestamp := t, type := "IncrementalSnapshot",
    details := { incrementalType := some "MouseInteraction", interactionType := some "Click" },
    element := some { tag := some "BUTTON", attributes := some [("type", "submit")] } }

/-- A processed navigation event. -/
def navEvt (t : Int) (href : String) : PEvent :=
  { timestamp := t, type := "Navigate", details := { href := some href }, url := some href }

/-- A processed scroll event. -/
def scrollEvt (t : Int) : PEvent :=
  { timestamp := t, type := "IncrementalSnapshot", details := { incrementalType := some "Scroll" } }

/-- A processed mouse-move event with one position sample. -/
def moveEvt (t x y : Int) : PEvent :=
  { timestamp := t, type := "IncrementalSnapshot",
    details := { incrementalType := some "MouseMove", positions := some [⟨x, y⟩] } }

/-- A session with no events at all. -/
def sEmpty : PData := { sessionId := "s0", events := [], metadata := mkMeta 0 0 }

/-- The rage-click scenario: 3 clicks at `(100,100)`, `(105,102)`, `(110,95)`
at `t = 0, 300, 600`. -/
def sRage3 : PData :=
  { sessionId := "s", events := [clickEvt 0 100 100, clickEvt 300 105 102, clickEvt 600 110 95],
    metadata := mkMeta 0 600 }

/-- The rage-click scenario extended by a 4th click at `t = 2000`. -/
def sRage4 : PData :=
  { sessionId := "s",
    events := [clickEvt 0 100 100, clickEvt 300 105 102, clickEvt 600 110 95, clickEvt 2000 100 100],
    metadata := mkMeta 0 2000 }

/-- Six same-area clicks forming two separate bursts. -/
def sRage6 : PData :=
  { sessionId := "s",
    events := [clickEvt 0 100 100, clickEvt 300 105 102, clickEvt 600 110 95,
               clickEvt 2000 100 100, clickEvt 2300 103 101, clickEvt 2600 99 98],
    metadata := mkMeta 0 2600 }

/-- Three same-position clicks at `t = 0, 900, 1800`: consecutive gaps are
under 1000 ms but the whole burst spans 1800 ms. -/
def sRageSpan : PData :=
  { sessionId := "s", events := [clickEvt 0 100 100, clickEvt 900 100 100, clickEvt 1800 100 100],
    metadata := mkMeta 0 1800 }

/-- Two inputs on form `f1`, a submit-button click, then a navigation. -/
def sFormSubmit : PData :=
  { sessionId := "s",
    events := [inputEvt 0 (some "f1"), inputEvt 100 (some "f1"), submitClickEvt 200,
               navEvt 300 "https://app/p2"],
    metadata := mkMeta 0 300 }

/-- Two inputs on form `f1` followed directly by a navigation. -/
def sFormAbandon : PData :=
  { sessionId := "s",
    events := [inputEvt 0 (some "f1"), inputEvt 100 (some "f1"), navEvt 300 "https://app/p2"],
    metadata := mkMeta 0 300 }

/-- A single input on form `f1` and nothing else. -/
def sFormSingle : PData :=
  { sessionId := "s", events := [inputEvt 0 (some "f1")], metadata := mkMeta 0 0 }

/-- A scroll followed 15 s later by a click: the gap's earlier event is not
interaction-class. -/
def sHes : PData :=
  { sessionId := "s", events := [scrollEvt 0, clickEvt 15000 50 50], metadata := mkMeta 0 15000 }

/-- Three mouse-move samples where the first reports position `(0,0)` and
the others valid nearby positions, with a 3.9 s gap before the last. -/
def sHoverMixed : PData :=
  { sessionId := "s", events := [moveEvt 0 0 0, moveEvt 100 10 10, moveEvt 4000 12 12],
    metadata := mkMeta 0 4000 }

/-- Three valid nearby mouse-move samples with a 3.9 s gap before the last. -/
def sHoverValid : PData :=
  { sessionId := "s", events := [moveEvt 0 5 5, moveEvt 100 10 10, moveEvt 4000 12 12],
    metadata := mkMeta 0 4000 }

/-- A well-formed raw mouse-interaction event. -/
def goodEvt : RRwebEvent :=
  { type := 3, timestamp := 100,
    data := some { source := some 2, type := some 2, x := some 5, y := some 6 } }

/-- A raw incremental event with a missing `data` payload: processing it
dereferences `event.data.source` and throws. -/
def badEvt : RRwebEvent := { type := 3, timestamp := 200, data := none }

/-- A fixed fallback-id source. -/
def gen0 : Nat → String := fun _ => "gid"

/-- Parsed top-level input without a `sessions` array. -/
def topNoSessions : Option RawTop := some { sessions := none }

/-- One session holding one good event. -/
def topGood : Option RawTop :=
  some { sessions := some [{ sessionId := some "sA",
                             records := some [{ events := some [goodEvt] }] }] }

/-- The same session with one malformed record added. -/
def topBad : Option RawTop :=
  some { sessions := some [{ sessionId := some "sA",
                             records := some [{ events := some [goodEvt, badEvt] }] }] }

/-- One session with no `sessionId`, forcing the clock/random fallback id. -/
def topNoId : Option RawTop :=
  some { sessions := some [{ sessionId := none,
                             records := some [{ events := some [goodEvt] }] }] }

/-- Fallback-id values of a first run. -/
def genA : Nat → String := fun _ => "idA"

/-- Fallback-id values of a second run. -/
def genB : Nat → String := fun _ => "idB"

/-- A fixed timestamp parse. -/
def gt0 : String → Int := fun _ => 0

/-- The sessions list of a parsed top-level input. -/
def sessionsOf (input : Option RawTop) : List RawSession :=
  match input with
  | some top => top.sessions.getD []
  | none => []

/-- The claim's trigger: at a `Navigate` event with a URL, at least 3 of
the `Navigate` events seen so far target the same URL within the rolling
120 s window (mirroring the first pass's running navigation list). -/
def navLoopTrigger (events : List PEvent) : Prop :=
  ∃ i, i < events.length ∧ (events.getD i default).type = "Navigate" ∧
    truthyStr (events.getD i default).details.href = true ∧
    3 ≤ ((events.take (i + 1)).filter (fun x => x.type == "Navigate" && truthyStr x.details.href &&
      decide (x.timestamp > (events.getD i default).timestamp - 120000) &&
      x.url == some ((events.getD i default).details.href.getD ""))).length

/-- The amended claim's per-index hesitation rule, written from its words:
for a consecutive pair with a gap over 10 s and under 300 s, both events of
type `IncrementalSnapshot` and the LATER event of interaction class
(`MouseInteraction` or `Input`), one `Hesitation` moment is produced. -/
def hesChunkSpec (events : List PEvent) (url sid : String) (i : Nat) : List Moment :=
  if 0 < i then
    let after := events.getD i default
    let before := events.getD (i - 1) default
    let gap := after.timestamp - before.timestamp
    if 10000 < gap ∧ gap < 300000 ∧ after.type = "IncrementalSnapshot" ∧
       before.type = "IncrementalSnapshot" ∧
       (after.details.incrementalType = some "MouseInteraction" ∨
        after.details.incrementalType = some "Input") then
      [Moment.hesitation after.timestamp gap before after url
        (getContextAroundEvent events i 5) sid]
    else []
  else []

/-- The amended claim's hesitation list for a whole session. -/
def hesitationSpec (events : List PEvent) (url sid : String) : List Moment :=
  ((List.range events.length).map (hesChunkSpec events url sid)).flatten

/-!
Theorems: generic lemmas about the embedding, then one theorem (with
counterexample and witness theorems where applicable) per specification
claim.
-/

/-- A successful record-map lookup returns a value paired with its key in
the underlying association list. -/
theorem lookup_val_mem : ∀ (l : List (Int × String)) (t : Int) (v : String),
    l.lookup t = some v → (t, v) ∈ l := by
  intro l
  induction l with
  | nil => intro t v h; simp [List.lookup] at h
  | cons p rest ih =>
    intro t v h
    rw [List.lookup] at h
    split at h
    · next heq =>
      cases h
      have ht : t = p.1 := by simpa using heq
      subst ht
      exact List.mem_cons_self _ _
    · right
      exact ih t v h

/-- The incremental-type name is never the string `Canvas` (the map yields
`CanvasMutation` for canvas events). -/
theorem incName_ne_canvas (o : Option Int) : incName o ≠ "Canvas" := by
  rw [incName.eq_def]
  split
  · next s =>
    intro h
    cases hl : incrementalTypeMap.lookup s with
    | none => rw [hl] at h; simp at h
    | some v =>
      rw [hl] at h
      simp at h
      subst h
      have := lookup_val_mem _ _ _ hl
      rw [incrementalTypeMap] at this
      simp at this
  · simp

/-- The event-type name is never the string `Navigate`. -/
theorem eventTypeName_ne_nav (t : Int) : eventTypeName t ≠ "Navigate" := by
  rw [eventTypeName]
  intro h
  cases hl : eventTypeMap.lookup t with
  | none => rw [hl] at h; simp at h
  | some v =>
    rw [hl] at h
    simp at h
    subst h
    have := lookup_val_mem _ _ _ hl
    rw [eventTypeMap] at this
    simp at this

/-- Only raw type 3 maps to the event-type name `IncrementalSnapshot`. -/
theorem eventTypeName_inc (t : Int) (h : eventTypeName t = "IncrementalSnapshot") : t = 3 := by
  rw [eventTypeName] at h
  cases hl : eventTypeMap.lookup t with
  | none => rw [hl] at h; simp at h
  | some v =>
    rw [hl] at h
    simp at h
    subst h
    have := lookup_val_mem _ _ _ hl
    rw [eventTypeMap] at this
    simp at this
    rcases this with h | h | h | h | h | h
    all_goals simp_all

/-- Every event produced by `processRRwebEvent` has a type name other than
`Navigate`, and when it is an `IncrementalSnapshot` its incremental type is
never `Canvas` (the `JSError` detector looks for exactly that pair). -/
theorem processRRwebEvent_prop (e : RRwebEvent) (pe : PEvent)
    (h : processRRwebEvent e = .ok pe) :
    pe.type ≠ "Navigate" ∧
    (pe.type = "IncrementalSnapshot" → pe.details.incrementalType ≠ some "Canvas") := by
  rw [processRRwebEvent] at h
  dsimp only at h
  repeat' split at h
  all_goals try exact Except.noConfusion h
  all_goals injection h with h
  all_goals subst h
  all_goals refine ⟨eventTypeName_ne_nav _, fun htype hcanvas => ?_⟩
  all_goals first
    | exact incName_ne_canvas _ (by simpa using hcanvas)
    | simp [spreadDetails] at hcanvas

/-- For a distance inside the window, the rounded relevance score lies in
`[0, 1]`. -/
theorem round2_window_mem_unit (d : Nat) (hd : d < 30000) :
    0 ≤ round2 (1 - (d : Rat) / 30000) ∧ round2 (1 - (d : Rat) / 30000) ≤ 1 := by
  have hq0 : (0 : Rat) ≤ 1 - (d : Rat) / 30000 := by
    have hle : (d : Rat) ≤ 30000 := by exact_mod_cast hd.le
    have h30 : (0 : Rat) < 30000 := by norm_num
    rw [sub_nonneg, div_le_one h30]
    exact hle
  have hq1 : 1 - (d : Rat) / 30000 ≤ 1 := by
    have : (0 : Rat) ≤ (d : Rat) / 30000 := by positivity
    linarith
  constructor
  · rw [round2]
    have hfl : (0 : Int) ≤ ⌊(1 - (d : Rat) / 30000) * 100 + 1 / 2⌋ := by
      apply Int.le_floor.mpr
      push_cast
      nlinarith
    have hc : (0 : Rat) ≤ (⌊(1 - (d : Rat) / 30000) * 100 + 1 / 2⌋ : Rat) := by
      exact_mod_cast hfl
    positivity
  · rw [round2]
    have hfl : ⌊(1 - (d : Rat) / 30000) * 100 + 1 / 2⌋ < 101 := by
      apply Int.floor_lt.mpr
      push_cast
      nlinarith
    have h100 : (⌊(1 - (d : Rat) / 30000) * 100 + 1 / 2⌋ : Rat) ≤ 100 := by
      exact_mod_cast Int.lt_add_one_iff.mp hfl
    rw [div_le_one (by norm_num : (0 : Rat) < 100)]
    exact h100

/-- The windowed join: the attached events are a permutation of the
strict-30s-window filter, sorted ascending by temporal distance, each
scored by the rounded linear relevance formula. -/
theorem relevantEvents_spec (mts : Int) (nevs : List NormPH) :
    (((relevantEvents mts nevs).map (fun s => NormPH.mk s.base s.normalizedTimestamp)).Perm
       (nevs.filter (fun e => decide (tDist mts e < 30000))))
    ∧ (relevantEvents mts nevs).Pairwise
        (fun a b => tDist mts ⟨a.base, a.normalizedTimestamp⟩ ≤ tDist mts ⟨b.base, b.normalizedTimestamp⟩)
    ∧ (∀ s ∈ relevantEvents mts nevs,
        s.relevanceScore = round2 (1 - ((tDist mts ⟨s.base, s.normalizedTimestamp⟩ : Int) : Rat) / 30000)
        ∧ tDist mts ⟨s.base, s.normalizedTimestamp⟩ < 30000
        ∧ 0 ≤ s.relevanceScore ∧ s.relevanceScore ≤ 1) := by
  have hr : ∀ (a b : NormPH), tDist mts a ≤ tDist mts b ∨ tDist mts b ≤ tDist mts a :=
    fun a b => Nat.le_total _ _
  refine ⟨?_, ?_, ?_⟩
  · rw [relevantEvents]
    simp only [List.map_map]
    have hid : ((fun s : ScoredPH => NormPH.mk s.base s.normalizedTimestamp) ∘
        (fun e : NormPH => ScoredPH.mk e.base e.normalizedTimestamp
          (round2 (1 - ((tDist mts e : Int) : Rat) / 30000)))) = id := by
      funext e
      rfl
    rw [hid, List.map_id]
    exact List.perm_insertionSort _ _
  · rw [relevantEvents]
    simp only [List.pairwise_map]
    haveI : IsTotal NormPH (fun a b => tDist mts a ≤ tDist mts b) := ⟨fun a b => hr a b⟩
    haveI : IsTrans NormPH (fun a b => tDist mts a ≤ tDist mts b) := ⟨fun _ _ _ => Nat.le_trans⟩
    exact List.sorted_insertionSort _ _
  · intro s hs
    rw [relevantEvents] at hs
    simp only [List.mem_map] at hs
    obtain ⟨e, he, rfl⟩ := hs
    have hmem : e ∈ nevs.filter (fun e => decide (tDist mts e < 30000)) :=
      (List.perm_insertionSort _ _).mem_iff.mp he
    have hlt : tDist mts e < 30000 := by
      have := (List.mem_filter.mp hmem).2
      simpa using this
    refine ⟨rfl, hlt, ?_⟩
    exact round2_window_mem_unit (tDist mts e) hlt

/-- C1: for every moment timestamp and external event list, the temporal
join attaches exactly the events at normalized-timestamp distance strictly
under 30000 ms, sorts them ascending by that distance, and scores each with
`1 - distance / 30000` rounded to 2 decimals, a value in `[0, 1]`; inside
`syncWithPostHogEvents` every correlated moment gets exactly this
attachment; at the boundary, a moment at `t = 1000` includes an event at
`t = 30999` (distance 29999) with score `0.00` and excludes one at
`t = 31001` (distance 30001). -/
theorem claim_C1_temporal_join (mts : Int) (nevs : List NormPH) :
    (((relevantEvents mts nevs).map (fun s => NormPH.mk s.base s.normalizedTimestamp)).Perm
       (nevs.filter (fun e => decide (tDist mts e < 30000))))
    ∧ (relevantEvents mts nevs).Pairwise
        (fun a b => tDist mts ⟨a.base, a.normalizedTimestamp⟩ ≤ tDist mts ⟨b.base, b.normalizedTimestamp⟩)
    ∧ (∀ s ∈ relevantEvents mts nevs,
        s.relevanceScore = round2 (1 - ((tDist mts ⟨s.base, s.normalizedTimestamp⟩ : Int) : Rat) / 30000)
        ∧ tDist mts ⟨s.base, s.normalizedTimestamp⟩ < 30000
        ∧ 0 ≤ s.relevanceScore ∧ s.relevanceScore ≤ 1)
    ∧ (∀ (getTime : String → Int) (rr : List PData) (ph : List PostHogEvent)
         (cm : CorrelatedMoment), cm ∈ (syncWithPostHogEvents getTime rr ph).2 →
           cm.nearbyPosthogEvents = relevantEvents cm.moment.timestamp (normalizedPH getTime ph))
    ∧ (relevantEvents 1000 [phNear, phFar]).map (fun s => s.normalizedTimestamp) = [30999]
    ∧ round2 (1 - (29999 : Rat) / 30000) = 0 := by
  refine ⟨(relevantEvents_spec mts nevs).1, (relevantEvents_spec mts nevs).2.1,
    (relevantEvents_spec mts nevs).2.2, ?_, by decide, ?_⟩
  · intro getTime rr ph cm hcm
    rw [syncWithPostHogEvents] at hcm
    simp only [List.mem_map] at hcm
    obtain ⟨m, _, rfl⟩ := hcm
    rfl
  · have h : (1 - (29999 : Rat) / 30000) * 100 + 1 / 2 = 151 / 300 := by norm_num
    have h2 : ⌊(151 : Rat) / 300⌋ = 0 := by
      rw [Int.floor_eq_iff]
      norm_num
    rw [round2, h, h2]
    norm_num

/-- Witness for C1 at the boundary input: the event at distance 29999 is
attached and its score is within `[0, 1]`. -/
theorem claim_C1_temporal_join_witness :
    0 ≤ round2 (1 - ((tDist 1000 phNear : Int) : Rat) / 30000)
    ∧ (relevantEvents 1000 [phNear, phFar]).map (fun s => s.normalizedTimestamp) = [30999] := by
  have h := claim_C1_temporal_join 1000 [phNear, phFar]
  have hmem : (⟨phNear.base, phNear.normalizedTimestamp,
      round2 (1 - ((tDist 1000 phNear : Int) : Rat) / 30000)⟩ : ScoredPH)
      ∈ relevantEvents 1000 [phNear, phFar] := by
    rw [show relevantEvents 1000 [phNear, phFar] = [⟨phNear.base, phNear.normalizedTimestamp,
      round2 (1 - ((tDist 1000 phNear : Int) : Rat) / 30000)⟩] from rfl]
    exact List.mem_singleton.mpr rfl
  exact ⟨(h.2.2.1 _ hmem).2.2.1, h.2.2.2.2.1⟩

/-- The rage/dead-click block emits only those two kinds. -/
theorem clickBlock_kinds (events : List PEvent) (url sid : String) (i : Nat) (e : PEvent)
    (st : St2) : ∀ m ∈ (clickBlock events url sid i e st).2,
    m.kind = "RageClick" ∨ m.kind = "DeadClick" := by
  rw [clickBlock]
  dsimp only
  split
  · refine List.forall_mem_append.mpr ⟨?_, ?_⟩
    · repeat' split
      all_goals simp [Moment.kind]
    · repeat' split
      all_goals simp [Moment.kind]
  · simp

/-- The navigate-form block emits only `FormAbandonment` moments. -/
theorem navFormBlock_kinds (events : List PEvent) (url sid : String) (i : Nat) (e : PEvent)
    (st : St2) : ∀ m ∈ (navFormBlock events url sid i e st).2, m.kind = "FormAbandonment" := by
  rw [navFormBlock]
  dsimp only
  repeat' split
  all_goals simp [Moment.kind]

/-- The scroll block emits only `RapidScrolling` moments. -/
theorem scrollBlock_kinds (events : List PEvent) (url sid : String) (i : Nat) (e : PEvent)
    (st : St2) : ∀ m ∈ (scrollBlock events url sid i e st).2, m.kind = "RapidScrolling" := by
  rw [scrollBlock]
  dsimp only
  repeat' split
  all_goals simp [Moment.kind]

/-- The mouse-move block emits only `MouseHovering` moments. -/
theorem hoverBlock_kinds (events : List PEvent) (url sid : String) (i : Nat) (e : PEvent)
    (st : St2) : ∀ m ∈ (hoverBlock events url sid i e st).2, m.kind = "MouseHovering" := by
  rw [hoverBlock]
  dsimp only
  repeat' split
  all_goals simp [Moment.kind]

/-- The hesitation block emits only `Hesitation` moments. -/
theorem hesitationBlock_kinds (events : List PEvent) (url sid : String) (i : Nat) :
    ∀ m ∈ hesitationBlock events url sid i, m.kind = "Hesitation" := by
  rw [hesitationBlock]
  dsimp only
  repeat' split
  all_goals simp [Moment.kind]

/-- The multiple-submissions block emits only that kind. -/
theorem multiSubBlock_kinds (events : List PEvent) (url sid : String) (i : Nat) (e : PEvent) :
    ∀ m ∈ multiSubBlock events url sid i e, m.kind = "MultipleSubmissions" := by
  rw [multiSubBlock]
  dsimp only
  repeat' split
  all_goals simp [Moment.kind]

/-- The horizontal-scroll block emits only that kind. -/
theorem horizBlock_kinds (vp : Viewport) (url sid : String) (e : PEvent) :
    ∀ m ∈ horizBlock vp url sid e, m.kind = "HorizontalScrollMobile" := by
  rw [horizBlock]
  repeat' split
  all_goals simp [Moment.kind]

/-- One first-pass step only appends `NavigationLoop` or `JSError` moments. -/
theorem step1_moments_mem (sid : String) (st : St1) (e : PEvent) :
    ∀ m ∈ (step1 sid st e).moments,
      m ∈ st.moments ∨ m.kind = "NavigationLoop" ∨ m.kind = "JSError" := by
  intro m hm
  rw [step1] at hm
  dsimp only at hm
  repeat' split at hm
  all_goals try simp only [List.mem_append, List.mem_singleton] at hm
  all_goals repeat' rcases hm with hm | hm
  all_goals simp_all [Moment.kind]

/-- One second-pass step emits only second-pass kinds. -/
theorem step2_kinds (events : List PEvent) (url : String) (vp : Viewport) (sid : String)
    (st : St2) (i : Nat) : ∀ m ∈ (step2 events url vp sid st i).2, m.kind ∈ pass2Kinds := by
  intro m hm
  rw [step2] at hm
  dsimp only at hm
  simp only [List.mem_append] at hm
  rcases hm with ((((((h | h) | h) | h) | h) | h) | h)
  · rcases clickBlock_kinds _ _ _ _ _ _ m h with h | h
    all_goals simp [h, pass2Kinds]
  · simp [navFormBlock_kinds _ _ _ _ _ _ m h, pass2Kinds]
  · simp [scrollBlock_kinds _ _ _ _ _ _ m h, pass2Kinds]
  · simp [hoverBlock_kinds _ _ _ _ _ _ m h, pass2Kinds]
  · simp [hesitationBlock_kinds _ _ _ _ m h, pass2Kinds]
  · simp [multiSubBlock_kinds _ _ _ _ _ m h, pass2Kinds]
  · simp [horizBlock_kinds _ _ _ _ m h, pass2Kinds]

/-- Generalized collection lemma for `collectFold`. -/
theorem collectFold_go {σ : Type} (f : σ → Nat → σ × List Moment) (P : Moment → Prop)
    (hf : ∀ st i, ∀ m ∈ (f st i).2, P m) :
    ∀ (l : List Nat) (st : σ) (acc : List Moment),
      ∀ m ∈ (l.foldl (fun a i => ((f a.1 i).1, a.2 ++ (f a.1 i).2)) (st, acc)).2,
        m ∈ acc ∨ P m := by
  intro l
  induction l with
  | nil => intro st acc m hm; exact Or.inl hm
  | cons i t ih =>
    intro st acc m hm
    rw [List.foldl_cons] at hm
    rcases ih _ _ m hm with h | h
    · rcases List.mem_append.mp h with h | h
      · exact Or.inl h
      · exact Or.inr (hf st i m h)
    · exact Or.inr h

/-- Every moment collected by `collectFold` satisfies any per-step
invariant of the step function. -/
theorem collectFold_mem {σ : Type} (f : σ → Nat → σ × List Moment) (P : Moment → Prop)
    (hf : ∀ st i, ∀ m ∈ (f st i).2, P m) (l : List Nat) (init : σ) :
    ∀ m ∈ (collectFold f init l).2, P m := by
  intro m hm
  rcases collectFold_go f P hf l init [] m hm with h | h
  · simp at h
  · exact h

/-- The second pass emits only second-pass kinds. -/
theorem pass2_kinds (events : List PEvent) (url : String) (vp : Viewport) (sid : String) :
    ∀ m ∈ (pass2 events url vp sid).2, m.kind ∈ pass2Kinds := by
  rw [pass2]
  exact collectFold_mem _ _ (fun st i => step2_kinds events url vp sid st i) _ _

/-- The first pass only appends `NavigationLoop` or `JSError` moments. -/
theorem pass1_moments_kind (sid : String) :
    ∀ (evs : List PEvent) (st : St1), ∀ m ∈ (evs.foldl (step1 sid) st).moments,
      m ∈ st.moments ∨ m.kind = "NavigationLoop" ∨ m.kind = "JSError" := by
  intro evs
  induction evs with
  | nil => intro st m hm; exact Or.inl hm
  | cons e t ih =>
    intro st m hm
    rw [List.foldl_cons] at hm
    rcases ih _ m hm with h | h
    · exact step1_moments_mem sid st e m h
    · exact Or.inr h

/-- First-pass moments are only `NavigationLoop` or `JSError`. -/
theorem pass1_kinds (sid initUrl : String) (evs : List PEvent) :
    ∀ m ∈ (pass1 sid initUrl evs).moments,
      m.kind = "NavigationLoop" ∨ m.kind = "JSError" := by
  intro m hm
  rcases pass1_moments_kind sid evs _ m hm with h | h
  · simp [St1.moments] at h
  · exact h

/-- Folding the per-session append from any accumulator. -/
theorem extract_go : ∀ (data : List PData) (acc : List Moment),
    data.foldl (fun a s => a ++ sessionMoments s) acc =
      acc ++ data.foldl (fun a s => a ++ sessionMoments s) [] := by
  intro data
  induction data with
  | nil => intro acc; simp
  | cons s t ih =>
    intro acc
    rw [List.foldl_cons, List.foldl_cons, ih (acc ++ sessionMoments s),
        ih ([] ++ sessionMoments s)]
    simp

/-- The function `extractKeyMoments` is the concatenation of the per-session moments. -/
theorem extractKeyMoments_cons (s : PData) (data : List PData) :
    extractKeyMoments (s :: data) = sessionMoments s ++ extractKeyMoments data := by
  rw [extractKeyMoments, extractKeyMoments, List.foldl_cons]
  simpa using extract_go data (sessionMoments s)

/-- Every extracted moment comes from one of the sessions. -/
theorem extract_mem (data : List PData) :
    ∀ m ∈ extractKeyMoments data, ∃ s ∈ data, m ∈ sessionMoments s := by
  induction data with
  | nil => intro m hm; simp [extractKeyMoments] at hm
  | cons s t ih =>
    intro m hm
    rw [extractKeyMoments_cons] at hm
    rcases List.mem_append.mp hm with h | h
    · exact ⟨s, List.mem_cons_self _ _, h⟩
    · obtain ⟨x, hx, hmx⟩ := ih m h
      exact ⟨x, List.mem_cons_of_mem _ hx, hmx⟩

/-- Every per-session moment comes from the first pass, the second pass, or
the post-session block (and the session is nonempty). -/
theorem sessionMoments_mem (s : PData) :
    ∀ m ∈ sessionMoments s, ∃ st1 p2, st1 = pass1 s.sessionId s.metadata.url s.events ∧
      p2 = pass2 s.events st1.currentUrl st1.viewport s.sessionId ∧ ¬s.events.isEmpty ∧
      (m ∈ st1.moments ∨ m ∈ p2.2 ∨
       m ∈ postMoments s.events st1 p2.1 s.metadata s.sessionId) := by
  intro m hm
  rw [sessionMoments] at hm
  split at hm
  · simp at hm
  · next h =>
    refine ⟨_, _, rfl, rfl, by simpa using h, ?_⟩
    simp only [List.mem_append] at hm
    tauto

/-- The post-session block contains exactly one `SessionMetrics` moment. -/
theorem postMoments_count_sm (events : List PEvent) (st1 : St1) (st2 : St2)
    (meta : Metadata) (sid : String) :
    (postMoments events st1 st2 meta sid).countP (fun m => m.kind == "SessionMetrics") = 1 := by
  rw [postMoments]
  rw [List.countP_append, List.countP_append]
  repeat' split
  all_goals simp [Moment.kind, List.countP_cons]

/-- The post-session block emits only its three kinds. -/
theorem postMoments_kinds (events : List PEvent) (st1 : St1) (st2 : St2)
    (meta : Metadata) (sid : String) :
    ∀ m ∈ postMoments events st1 st2 meta sid,
      m.kind = "FormAbandonment" ∨ m.kind = "ShortSession" ∨ m.kind = "SessionMetrics" := by
  rw [postMoments]
  refine List.forall_mem_append.mpr ⟨List.forall_mem_append.mpr ⟨?_, ?_⟩, ?_⟩
  all_goals repeat' split
  all_goals simp [Moment.kind]

/-- A session contributes one `SessionMetrics` moment when it has events,
none when it is empty. -/
theorem sessionMoments_count_sm (s : PData) :
    (sessionMoments s).countP (fun m => m.kind == "SessionMetrics") =
      if s.events.isEmpty then 0 else 1 := by
  rw [sessionMoments]
  split
  · simp
  · rw [List.countP_append, List.countP_append]
    have h1 : (pass1 s.sessionId s.metadata.url s.events).moments.countP
        (fun m => m.kind == "SessionMetrics") = 0 := by
      rw [List.countP_eq_zero]
      intro m hm
      rcases pass1_kinds _ _ _ m hm with h | h
      all_goals simp [h]
    have h2 : (pass2 s.events (pass1 s.sessionId s.metadata.url s.events).currentUrl
        (pass1 s.sessionId s.metadata.url s.events).viewport s.sessionId).2.countP
        (fun m => m.kind == "SessionMetrics") = 0 := by
      rw [List.countP_eq_zero]
      intro m hm
      have hk := pass2_kinds _ _ _ _ m hm
      simp [pass2Kinds] at hk
      rcases hk with h | h | h | h | h | h | h | h
      all_goals simp [h]
    rw [h1, h2, postMoments_count_sm]

/-- C2 counterexample: a session with zero events is skipped entirely by
`extractKeyMoments` — it yields no moments at all, in particular no
`SessionMetrics` moment, contradicting the claim that every session
(including an empty one) gets exactly one. -/
theorem claim_C2_counterexample :
    extractKeyMoments [sEmpty] = []
    ∧ (extractKeyMoments [sEmpty]).countP (fun m => m.kind == "SessionMetrics") = 0 := by
  constructor
  · decide
  · decide

/-- C2 amended: every session with at least one event contributes exactly
one `SessionMetrics` moment; a session with zero events is skipped and
contributes no moments at all. -/
theorem claim_C2_session_metrics :
    (∀ data : List PData,
      (extractKeyMoments data).countP (fun m => m.kind == "SessionMetrics") =
        data.countP (fun s => !s.events.isEmpty))
    ∧ (∀ s : PData, s.events = [] → extractKeyMoments [s] = []) := by
  constructor
  · intro data
    induction data with
    | nil => simp [extractKeyMoments]
    | cons s t ih =>
      rw [extractKeyMoments_cons, List.countP_append, ih, sessionMoments_count_sm,
          List.countP_cons]
      by_cases h : s.events.isEmpty
      all_goals simp [h, Nat.add_comm]
  · intro s h
    rw [extractKeyMoments_cons]
    simp [sessionMoments, h, extractKeyMoments]

/-- Witness for C2 amended at the empty session. -/
theorem claim_C2_session_metrics_witness :
    sEmpty.events = [] ∧ extractKeyMoments [sEmpty] = [] :=
  ⟨rfl, claim_C2_session_metrics.2 sEmpty rfl⟩

/-- C3 counterexample: three same-position clicks at `t = 0, 900, 1800`
produce a `RageClick` with `clickCount = 3` although no 1000 ms window
contains all three clicks (a window `[t, t + 1000)` holding the first and
the last would need `t ≤ 0` and `1800 < t + 1000`, which is impossible):
the code only requires each click to be within 1000 ms of the previous
one. -/
theorem claim_C3_counterexample :
    ((extractKeyMoments [sRageSpan]).filter (fun m => m.kind == "RageClick")).map
      Moment.rageClicks = [3]
    ∧ ¬∃ t : Int, t ≤ 0 ∧ (1800 : Int) < t + 1000 := by
  constructor
  · decide
  · rintro ⟨t, h1, h2⟩
    omega

/-- C3 amended: a RageClick fires when a click arrives within 1000 ms of
the previous click and at least 3 buffered clicks sit within 20 px per axis
of it; the 3-click scenario emits exactly one RageClick with
`clickCount = 3`, a 4th click 1400 ms later does not extend it, a second
burst produces a second RageClick, and a chain of sub-1000 ms gaps spanning
1800 ms also fires. -/
theorem claim_C3_rage_click :
    ((extractKeyMoments [sRage3]).filter (fun m => m.kind == "RageClick")).map
      Moment.rageClicks = [3]
    ∧ ((extractKeyMoments [sRage4]).filter (fun m => m.kind == "RageClick")).map
      Moment.rageClicks = [3]
    ∧ ((extractKeyMoments [sRage6]).filter (fun m => m.kind == "RageClick")).map
      Moment.rageClicks = [3, 3]
    ∧ ((extractKeyMoments [sRageSpan]).filter (fun m => m.kind == "RageClick")).map
      Moment.rageClicks = [3] := by
  refine ⟨by decide, by decide, by decide, by decide⟩

/-- C4 counterexample: a session consisting of a single input event bound
to form `f1` ends with the form open, and the end-of-session check emits a
`FormAbandonment` with `interactionCount = 1` — though the claim requires
at least 2 input events; the session's `SessionMetrics` confirms only one
input event exists. -/
theorem claim_C4_counterexample :
    ((extractKeyMoments [sFormSingle]).filter (fun m => m.kind == "FormAbandonment")).map
      Moment.faInteractions = [1]
    ∧ ((extractKeyMoments [sFormSingle]).filter (fun m => m.kind == "SessionMetrics")).map
      Moment.smInputs = [1] := by
  refine ⟨by decide, by decide⟩

/-- C4 amended: the navigate-triggered check requires ≥2 accumulated inputs
and no qualifying submit click in the 10-event lookback (2 inputs + submit
+ navigate emit nothing; without the submit, exactly one `FormAbandonment`
with `interactionCount = 2`); the end-of-session check fires already with a
single input, emitting `interactionCount = 1`. -/
theorem claim_C4_form_abandonment :
    ((extractKeyMoments [sFormSubmit]).filter (fun m => m.kind == "FormAbandonment")).length = 0
    ∧ ((extractKeyMoments [sFormAbandon]).filter (fun m => m.kind == "FormAbandonment")).map
      Moment.faInteractions = [2]
    ∧ ((extractKeyMoments [sFormSingle]).filter (fun m => m.kind == "FormAbandonment")).map
      Moment.faInteractions = [1] := by
  refine ⟨by decide, by decide, by decide⟩

/-- C8 counterexample: three mouse-move samples whose positions are
`(0,0)`, `(10,10)`, `(12,12)` — a mix of one default/invalid sample and two
valid ones — meet the 3-sample, 30 px and 3 s conditions, yet no
`MouseHovering` is emitted: the code discards the group when ANY sample is
`(0,0)`, not only when all are. -/
theorem claim_C8_counterexample :
    ((extractKeyMoments [sHoverMixed]).filter (fun m => m.kind == "MouseHovering")).length = 0
    ∧ (4000 : Int) - 100 > 3000
    ∧ ((10 : Int) - 0 < 30 ∧ (12 : Int) - 10 < 30) := by
  refine ⟨by decide, by decide, by decide, by decide⟩

/-- C8 amended: emission requires all three of the last samples to be valid
(different from `(0,0)`): the all-valid variant emits exactly one
`MouseHovering`, while the same geometry with one `(0,0)` sample emits
none. -/
theorem claim_C8_mouse_hovering :
    ((extractKeyMoments [sHoverValid]).filter (fun m => m.kind == "MouseHovering")).length = 1
    ∧ ((extractKeyMoments [sHoverMixed]).filter (fun m => m.kind == "MouseHovering")).length = 0 := by
  refine ⟨by decide, by decide⟩

/-- C7 counterexample: malformed top-level input does not fail — the call
returns an ordinary empty result (no `InvalidInputError` is raised); and a
single malformed record DOES abort the batch: adding one event with a
missing payload to an otherwise loadable input throws internally, the
top-level catch swallows it, and the entire batch (including the good
session) is dropped. -/
theorem claim_C7_counterexample :
    loadRRwebDataE gen0 topNoSessions = .ok []
    ∧ loadRRwebDataE gen0 topBad = .error ()
    ∧ loadRRwebData gen0 topBad = []
    ∧ loadRRwebData gen0 topGood ≠ [] := by
  refine ⟨rfl, rfl, rfl, by decide⟩

/-- C7 amended: unparseable JSON and a missing `sessions` array both yield
an empty result with no exception; a record whose event lacks its `data`
payload throws during processing, and the enclosing catch converts that
into an empty result, discarding every session of the batch; without the
bad record the batch loads. -/
theorem claim_C7_loader_errors :
    loadRRwebDataE gen0 none = .ok []
    ∧ loadRRwebDataE gen0 topNoSessions = .ok []
    ∧ loadRRwebDataE gen0 topBad = .error ()
    ∧ loadRRwebData gen0 topBad = []
    ∧ (loadRRwebData gen0 topGood).length = 1 := by
  refine ⟨rfl, rfl, rfl, rfl, by decide⟩

/-- C9 counterexample: on input whose session lacks a `sessionId`, the
fallback id is built from `Date.now()` and `Math.random()`, which differ
between two runs (modelled by two id streams); the two runs produce
different `CorrelatedMoment` output for identical inputs. -/
theorem claim_C9_counterexample :
    pipeline genA gt0 topNoId [] ≠ pipeline genB gt0 topNoId [] := by
  decide

/-- The function `processSession` ignores the generated fallback id when the session
carries a truthy `sessionId`. -/
theorem processSession_gen_indep (g1 g2 : String) (s : RawSession)
    (h : truthyStr s.sessionId = true) : processSession g1 s = processSession g2 s := by
  cases hs : s.sessionId with
  | none => rw [hs] at h; simp [truthyStr] at h
  | some x =>
    rw [hs] at h
    have hx : (x != "") = true := h
    rw [processSession, processSession, hs]
    simp [hx]

/-- The function `loadSessions` ignores the id stream when every session carries a
truthy `sessionId`. -/
theorem loadSessions_gen_indep (g1 g2 : Nat → String) :
    ∀ (ss : List RawSession), (∀ s ∈ ss, truthyStr s.sessionId = true) →
      ∀ i, loadSessions g1 i ss = loadSessions g2 i ss := by
  intro ss
  induction ss with
  | nil => intro _ i; rfl
  | cons s t ih =>
    intro h i
    rw [loadSessions, loadSessions,
        processSession_gen_indep (g1 i) (g2 i) s (h s (List.mem_cons_self _ _))]
    cases processSession (g2 i) s with
    | error u => rfl
    | ok p =>
      rw [ih (fun x hx => h x (List.mem_cons_of_mem _ hx)) (i + 1)]

/-- C9 amended: when every session of the input carries a (truthy)
`sessionId`, the full pipeline's output does not depend on the
clock/random fallback-id stream — two runs on identical input produce
identical `CorrelatedMoment` output. -/
theorem claim_C9_deterministic_with_ids (gen1 gen2 : Nat → String) (getTime : String → Int)
    (input : Option RawTop) (ph : List PostHogEvent)
    (h : ∀ s ∈ sessionsOf input, truthyStr s.sessionId = true) :
    pipeline gen1 getTime input ph = pipeline gen2 getTime input ph := by
  have hload : loadRRwebData gen1 input = loadRRwebData gen2 input := by
    rw [loadRRwebData, loadRRwebData, loadRRwebDataE.eq_def, loadRRwebDataE.eq_def]
    cases input with
    | none => rfl
    | some top =>
      dsimp only
      cases htop : top.sessions with
      | none => rfl
      | some ss =>
        have hss : ∀ s ∈ ss, truthyStr s.sessionId = true := by
          intro s hs
          apply h
          simp [sessionsOf, htop]
          exact hs
        dsimp only
        rw [loadSessions_gen_indep gen1 gen2 ss hss 0]
  rw [pipeline, pipeline, hload]

/-- Witness for C9 amended: with explicit session ids, two runs with
different fallback streams agree. -/
theorem claim_C9_deterministic_with_ids_witness :
    pipeline genA gt0 topGood [] = pipeline genB gt0 topGood [] :=
  claim_C9_deterministic_with_ids genA genB gt0 topGood [] (by decide)

/-- Members of a successful `mapExcept` come from successful applications. -/
theorem mapExcept_mem {α β : Type} (f : α → Except Unit β) :
    ∀ (l : List α) (r : List β), mapExcept f l = .ok r → ∀ y ∈ r, ∃ x ∈ l, f x = .ok y := by
  intro l
  induction l with
  | nil =>
    intro r h y hy
    rw [mapExcept] at h
    cases h
    simp at hy
  | cons a t ih =>
    intro r h y hy
    rw [mapExcept] at h
    cases hfa : f a with
    | error u => rw [hfa] at h; exact Except.noConfusion h
    | ok b =>
      rw [hfa] at h
      cases hmt : mapExcept f t with
      | error u => rw [hmt] at h; exact Except.noConfusion h
      | ok bs =>
        rw [hmt] at h
        injection h with h
        subst h
        rcases List.mem_cons.mp hy with rfl | hy2
        · exact ⟨a, List.mem_cons_self _ _, hfa⟩
        · obtain ⟨x, hx, hfx⟩ := ih bs hmt y hy2
          exact ⟨x, List.mem_cons_of_mem _ hx, hfx⟩

/-- Every event of a successfully processed session was produced by
`processRRwebEvent`. -/
theorem processSession_events (gid : String) (s : RawSession) (p : PData)
    (h : processSession gid s = .ok p) :
    ∀ pe ∈ p.events, ∃ raw, processRRwebEvent raw = .ok pe := by
  rw [processSession] at h
  cases hme : mapExcept processRRwebEvent
      (List.insertionSort (fun a b => a.timestamp ≤ b.timestamp)
        ((s.records.getD []).foldl (fun acc r => acc ++ r.events.getD []) [])) with
  | error u => rw [hme] at h; exact Except.noConfusion h
  | ok pevents =>
    rw [hme] at h
    injection h with h
    subst h
    intro pe hpe
    obtain ⟨raw, _, hr⟩ := mapExcept_mem _ _ _ hme pe (by simpa using hpe)
    exact ⟨raw, hr⟩

/-- Every session of a successful `loadSessions` call was produced by
`processSession`. -/
theorem loadSessions_mem (gen : Nat → String) :
    ∀ (ss : List RawSession) (i : Nat) (ps : List PData), loadSessions gen i ss = .ok ps →
      ∀ p ∈ ps, ∃ gid s, processSession gid s = .ok p := by
  intro ss
  induction ss with
  | nil =>
    intro i ps h p hp
    rw [loadSessions] at h
    cases h
    simp at hp
  | cons s t ih =>
    intro i ps h p hp
    rw [loadSessions] at h
    cases hps : processSession (gen i) s with
    | error u => rw [hps] at h; exact Except.noConfusion h
    | ok q =>
      rw [hps] at h
      cases hlt : loadSessions gen (i + 1) t with
      | error u => rw [hlt] at h; exact Except.noConfusion h
      | ok qs =>
        rw [hlt] at h
        injection h with h
        subst h
        rcases List.mem_cons.mp hp with rfl | hp2
        · exact ⟨gen i, s, hps⟩
        · exact ih (i + 1) qs hlt p hp2

/-- Every event of every loaded session has a type name other than
`Navigate`, and an `IncrementalSnapshot` event never carries incremental
type `Canvas`. -/
theorem loadRRwebData_events (gen : Nat → String) (input : Option RawTop) :
    ∀ p ∈ loadRRwebData gen input, ∀ pe ∈ p.events,
      pe.type ≠ "Navigate" ∧
      (pe.type = "IncrementalSnapshot" → pe.details.incrementalType ≠ some "Canvas") := by
  intro p hp pe hpe
  rw [loadRRwebData] at hp
  cases hE : loadRRwebDataE gen input with
  | error u => rw [hE] at hp; simp at hp
  | ok ps =>
    rw [hE] at hp
    rw [loadRRwebDataE.eq_def] at hE
    cases input with
    | none => cases hE; simp at hp
    | some top =>
      dsimp only at hE
      cases htop : top.sessions with
      | none => rw [htop] at hE; cases hE; simp at hp
      | some ss =>
        rw [htop] at hE
        obtain ⟨gid, s, hps⟩ := loadSessions_mem gen ss 0 ps hE p hp
        obtain ⟨raw, hr⟩ := processSession_events gid s p hps pe hpe
        exact processRRwebEvent_prop raw pe hr

/-- One first-pass step leaves the moments and error-event lists unchanged
when the event is neither a `Navigate` event nor a canvas-error event. -/
theorem step1_clean (sid : String) (st : St1) (e : PEvent)
    (hNav : e.type ≠ "Navigate")
    (hCan : e.type = "IncrementalSnapshot" → e.details.incrementalType ≠ some "Canvas") :
    (step1 sid st e).moments = st.moments ∧ (step1 sid st e).errorEvents = st.errorEvents := by
  rw [step1]
  dsimp only
  repeat' split
  all_goals simp_all

/-- The first pass over navigate-free, canvas-free events emits no moments
and records no error events. -/
theorem pass1_clean_go (sid : String) :
    ∀ (evs : List PEvent) (st : St1),
      (∀ e ∈ evs, e.type ≠ "Navigate") →
      (∀ e ∈ evs, e.type = "IncrementalSnapshot" → e.details.incrementalType ≠ some "Canvas") →
      (evs.foldl (step1 sid) st).moments = st.moments ∧
      (evs.foldl (step1 sid) st).errorEvents = st.errorEvents := by
  intro evs
  induction evs with
  | nil => intro st _ _; exact ⟨rfl, rfl⟩
  | cons e t ih =>
    intro st hNav hCan
    rw [List.foldl_cons]
    have hstep := step1_clean sid st e (hNav e (List.mem_cons_self _ _))
      (hCan e (List.mem_cons_self _ _))
    have hrest := ih (step1 sid st e)
      (fun x hx => hNav x (List.mem_cons_of_mem _ hx))
      (fun x hx => hCan x (List.mem_cons_of_mem _ hx))
    exact ⟨hrest.1.trans hstep.1, hrest.2.trans hstep.2⟩

/-- The function `pass1` on navigate-free, canvas-free events: no moments, no errors. -/
theorem pass1_clean (sid u : String) (evs : List PEvent)
    (hNav : ∀ e ∈ evs, e.type ≠ "Navigate")
    (hCan : ∀ e ∈ evs, e.type = "IncrementalSnapshot" → e.details.incrementalType ≠ some "Canvas") :
    (pass1 sid u evs).moments = [] ∧ (pass1 sid u evs).errorEvents = [] := by
  have := pass1_clean_go sid evs { currentUrl := u } hNav hCan
  exact this

/-- In the post-session block, the `SessionMetrics` moment's `errorCount`
is the length of the first pass's error-event list. -/
theorem postMoments_sm_errors (events : List PEvent) (st1 : St1) (st2 : St2)
    (meta : Metadata) (sid : String) :
    ∀ m ∈ postMoments events st1 st2 meta sid, m.kind = "SessionMetrics" →
      m.smErrors = st1.errorEvents.length := by
  rw [postMoments]
  refine List.forall_mem_append.mpr ⟨List.forall_mem_append.mpr ⟨?_, ?_⟩, ?_⟩
  all_goals repeat' split
  all_goals simp [Moment.kind, Moment.smErrors]

/-- C10: for sessions produced by the event processor, the canvas pair
required by the `JSError` detector never occurs (the map yields
`CanvasMutation`, not `Canvas`), so no `JSError` moment is ever emitted and
every `SessionMetrics` moment reports `errorCount = 0`. -/
theorem claim_C10_no_jserror (gen : Nat → String) (input : Option RawTop) :
    (∀ p ∈ loadRRwebData gen input, ∀ pe ∈ p.events,
      ¬(pe.type = "IncrementalSnapshot" ∧ pe.details.incrementalType = some "Canvas"))
    ∧ (∀ m ∈ extractKeyMoments (loadRRwebData gen input), m.kind ≠ "JSError")
    ∧ (∀ m ∈ extractKeyMoments (loadRRwebData gen input),
        m.kind = "SessionMetrics" → m.smErrors = 0) := by
  refine ⟨?_, ?_, ?_⟩
  · intro p hp pe hpe ⟨h1, h2⟩
    exact (loadRRwebData_events gen input p hp pe hpe).2 h1 h2
  · intro m hm heq
    obtain ⟨s, hs, hms⟩ := extract_mem _ m hm
    have hev := loadRRwebData_events gen input s hs
    have hclean := pass1_clean s.sessionId s.metadata.url s.events
      (fun e he => (hev e he).1) (fun e he => (hev e he).2)
    obtain ⟨st1, p2, rfl, rfl, _, hcase⟩ := sessionMoments_mem s m hms
    rcases hcase with h | h | h
    · rw [hclean.1] at h
      simp at h
    · have hk := pass2_kinds _ _ _ _ m h
      rw [heq] at hk
      simp [pass2Kinds] at hk
    · rcases postMoments_kinds _ _ _ _ _ m h with hk | hk | hk
      all_goals rw [heq] at hk
      all_goals simp at hk
  · intro m hm heq
    obtain ⟨s, hs, hms⟩ := extract_mem _ m hm
    have hev := loadRRwebData_events gen input s hs
    have hclean := pass1_clean s.sessionId s.metadata.url s.events
      (fun e he => (hev e he).1) (fun e he => (hev e he).2)
    obtain ⟨st1, p2, rfl, rfl, _, hcase⟩ := sessionMoments_mem s m hms
    rcases hcase with h | h | h
    · rw [hclean.1] at h
      simp at h
    · have hk := pass2_kinds _ _ _ _ m h
      rw [heq] at hk
      simp [pass2Kinds] at hk
    · rw [postMoments_sm_errors _ _ _ _ _ m h heq, hclean.2]
      rfl

/-- Witness for C10 on a concrete loadable input. -/
theorem claim_C10_no_jserror_witness :
    ((extractKeyMoments (loadRRwebData gen0 topGood)).filter
      (fun m => m.kind == "SessionMetrics")).map Moment.smErrors = [0] := by
  have h := claim_C10_no_jserror gen0 topGood
  have hmem : (Moment.sessionMetrics 100 0 1 0 0 0 "sA") ∈
      extractKeyMoments (loadRRwebData gen0 topGood) := by decide
  have h0 := h.2.2 _ hmem rfl
  decide

/-- C5: sessions produced by the normalizer never contain `Navigate`-typed
events (the event-type map has no such name), so the navigation-loop
trigger never fires on them, no `NavigationLoop` moment is ever emitted,
and — vacuously — whenever the trigger fires a `NavigationLoop` is
emitted. -/
theorem claim_C5_navigation_loop (gen : Nat → String) (input : Option RawTop) :
    (∀ s ∈ loadRRwebData gen input, ¬navLoopTrigger s.events)
    ∧ (∀ m ∈ extractKeyMoments (loadRRwebData gen input), m.kind ≠ "NavigationLoop")
    ∧ (∀ s ∈ loadRRwebData gen input, navLoopTrigger s.events →
        ∃ m ∈ extractKeyMoments (loadRRwebData gen input), m.kind = "NavigationLoop") := by
  have hnotrig : ∀ s ∈ loadRRwebData gen input, ¬navLoopTrigger s.events := by
    intro s hs ⟨i, hi, htype, _⟩
    have hev := loadRRwebData_events gen input s hs
    have hmem : s.events.getD i default ∈ s.events := by
      rw [List.getD_eq_getElem s.events default hi]
      exact List.getElem_mem hi
    exact (hev _ hmem).1 htype
  refine ⟨hnotrig, ?_, fun s hs ht => absurd ht (hnotrig s hs)⟩
  intro m hm heq
  obtain ⟨s, hs, hms⟩ := extract_mem _ m hm
  have hev := loadRRwebData_events gen input s hs
  have hclean := pass1_clean s.sessionId s.metadata.url s.events
    (fun e he => (hev e he).1) (fun e he => (hev e he).2)
  obtain ⟨st1, p2, rfl, rfl, _, hcase⟩ := sessionMoments_mem s m hms
  rcases hcase with h | h | h
  · rw [hclean.1] at h
    simp at h
  · have hk := pass2_kinds _ _ _ _ m h
    rw [heq] at hk
    simp [pass2Kinds] at hk
  · rcases postMoments_kinds _ _ _ _ _ m h with hk | hk | hk
    all_goals rw [heq] at hk
    all_goals simp at hk

/-- Witness for C5 on a concrete loadable input. -/
theorem claim_C5_navigation_loop_witness :
    ¬navLoopTrigger ((loadRRwebData gen0 topGood).headD
      { sessionId := "", events := [], metadata := mkMeta 0 0 }).events := by
  have h := claim_C5_navigation_loop gen0 topGood
  have hmem : (loadRRwebData gen0 topGood).headD
      { sessionId := "", events := [], metadata := mkMeta 0 0 } ∈ loadRRwebData gen0 topGood := by
    decide
  exact h.1 _ hmem

/-- C6 counterexample: a `Scroll` event followed 15 s later by a click
emits a `Hesitation` of 15000 ms, although the gap's earlier event is not
interaction-class — the code checks only the later event's incremental
type. -/
theorem claim_C6_counterexample :
    ((extractKeyMoments [sHes]).filter (fun m => m.kind == "Hesitation")).map
      Moment.hesDuration = [15000]
    ∧ (sHes.events.headD default).details.incrementalType = some "Scroll" := by
  refine ⟨by decide, by decide⟩

/-- The source's hesitation block agrees with the amended claim's rule. -/
theorem hesitationBlock_eq_spec (events : List PEvent) (url sid : String) (i : Nat) :
    hesitationBlock events url sid i = hesChunkSpec events url sid i := by
  rw [hesitationBlock, hesChunkSpec]
  by_cases h : 0 < i
  · rw [if_pos h, if_pos h]
    dsimp only
    refine if_congr ?_ rfl rfl
    simp [Bool.and_eq_true, decide_eq_true_eq, and_assoc]
  · rw [if_neg h, if_neg h]

/-- Filtering one second-pass step for hesitations yields exactly the
hesitation block: no other block emits that kind, and the block itself is
independent of the detector state. -/
theorem step2_filter_hes (events : List PEvent) (url : String) (vp : Viewport) (sid : String)
    (st : St2) (i : Nat) :
    ((step2 events url vp sid st i).2).filter (fun m => m.kind == "Hesitation") =
      hesitationBlock events url sid i := by
  have hA : ∀ stx : St2, ((clickBlock events url sid i (events.getD i default) stx).2).filter
      (fun m => m.kind == "Hesitation") = [] := by
    intro stx
    rw [List.filter_eq_nil_iff]
    intro m hm
    rcases clickBlock_kinds _ _ _ _ _ _ m hm with h | h
    all_goals simp [h]
  have hC : ∀ stx : St2, ((navFormBlock events url sid i (events.getD i default) stx).2).filter
      (fun m => m.kind == "Hesitation") = [] := by
    intro stx
    rw [List.filter_eq_nil_iff]
    intro m hm
    simp [navFormBlock_kinds _ _ _ _ _ _ m hm]
  have hD : ∀ stx : St2, ((scrollBlock events url sid i (events.getD i default) stx).2).filter
      (fun m => m.kind == "Hesitation") = [] := by
    intro stx
    rw [List.filter_eq_nil_iff]
    intro m hm
    simp [scrollBlock_kinds _ _ _ _ _ _ m hm]
  have hE : ∀ stx : St2, ((hoverBlock events url sid i (events.getD i default) stx).2).filter
      (fun m => m.kind == "Hesitation") = [] := by
    intro stx
    rw [List.filter_eq_nil_iff]
    intro m hm
    simp [hoverBlock_kinds _ _ _ _ _ _ m hm]
  have hF : (hesitationBlock events url sid i).filter (fun m => m.kind == "Hesitation") =
      hesitationBlock events url sid i := by
    rw [List.filter_eq_self]
    intro m hm
    simp [hesitationBlock_kinds _ _ _ _ m hm]
  have hG : (multiSubBlock events url sid i (events.getD i default)).filter
      (fun m => m.kind == "Hesitation") = [] := by
    rw [List.filter_eq_nil_iff]
    intro m hm
    simp [multiSubBlock_kinds _ _ _ _ _ m hm]
  have hH : (horizBlock vp url sid (events.getD i default)).filter
      (fun m => m.kind == "Hesitation") = [] := by
    rw [List.filter_eq_nil_iff]
    intro m hm
    simp [horizBlock_kinds _ _ _ _ m hm]
  rw [step2]
  dsimp only
  simp only [List.filter_append]
  rw [hA, hC, hD, hE, hF, hG, hH]
  simp

/-- Generalized filter lemma for `collectFold` when the per-step filtered
output is state-independent. -/
theorem collectFold_filter {σ : Type} (f : σ → Nat → σ × List Moment) (q : Moment → Bool)
    (g : Nat → List Moment) (hf : ∀ st i, ((f st i).2).filter q = g i) :
    ∀ (l : List Nat) (st : σ) (acc : List Moment),
      ((l.foldl (fun a i => ((f a.1 i).1, a.2 ++ (f a.1 i).2)) (st, acc)).2).filter q =
        acc.filter q ++ (l.map g).flatten := by
  intro l
  induction l with
  | nil => intro st acc; simp
  | cons i t ih =>
    intro st acc
    rw [List.foldl_cons, ih, List.filter_append, hf st i, List.map_cons, List.flatten_cons,
        List.append_assoc]

/-- The second pass's hesitation output, by index. -/
theorem pass2_filter_hes (events : List PEvent) (url : String) (vp : Viewport) (sid : String) :
    ((pass2 events url vp sid).2).filter (fun m => m.kind == "Hesitation") =
      ((List.range events.length).map (hesitationBlock events url sid)).flatten := by
  rw [pass2, collectFold]
  rw [collectFold_filter (step2 events url vp sid) _ (hesitationBlock events url sid)
      (fun st i => step2_filter_hes events url vp sid st i)]
  simp

/-- C6 amended: for every session, the extracted `Hesitation` moments are
exactly those of the amended rule — gap over 10 s and under 300 s, both
events `IncrementalSnapshot`, and the LATER event interaction-class; the
earlier event's incremental type is not constrained. -/
theorem claim_C6_hesitation (s : PData) :
    (extractKeyMoments [s]).filter (fun m => m.kind == "Hesitation") =
      if s.events.isEmpty then [] else
        hesitationSpec s.events (pass1 s.sessionId s.metadata.url s.events).currentUrl
          s.sessionId := by
  rw [extractKeyMoments_cons, show extractKeyMoments [] = [] from rfl, List.append_nil,
      sessionMoments]
  split
  · simp
  · rw [List.filter_append, List.filter_append]
    have h1 : (pass1 s.sessionId s.metadata.url s.events).moments.filter
        (fun m => m.kind == "Hesitation") = [] := by
      rw [List.filter_eq_nil_iff]
      intro m hm
      rcases pass1_kinds _ _ _ m hm with h | h
      all_goals simp [h]
    have h3 : (postMoments s.events (pass1 s.sessionId s.metadata.url s.events)
        (pass2 s.events (pass1 s.sessionId s.metadata.url s.events).currentUrl
          (pass1 s.sessionId s.metadata.url s.events).viewport s.sessionId).1
        s.metadata s.sessionId).filter (fun m => m.kind == "Hesitation") = [] := by
      rw [List.filter_eq_nil_iff]
      intro m hm
      rcases postMoments_kinds _ _ _ _ _ m hm with h | h | h
      all_goals simp [h]
    rw [h1, h3, pass2_filter_hes, hesitationSpec]
    have hmap : (List.range s.events.length).map (hesitationBlock s.events
        (pass1 s.sessionId s.metadata.url s.events).currentUrl s.sessionId) =
        (List.range s.events.length).map (hesChunkSpec s.events
        (pass1 s.sessionId s.metadata.url s.events).currentUrl s.sessionId) :=
      List.map_congr_left (fun i _ => hesitationBlock_eq_spec _ _ _ i)
    rw [hmap]
    simp

/-- Witness for C6 amended at the scroll-then-click session. -/
theorem claim_C6_hesitation_witness :
    (extractKeyMoments [sHes]).filter (fun m => m.kind == "Hesitation") =
      (if sHes.events.isEmpty then [] else
        hesitationSpec sHes.events (pass1 sHes.sessionId sHes.metadata.url sHes.events).currentUrl
          sHes.sessionId) :=
  claim_C6_hesitation sHes
